import Mathlib

/-!
Verification of the Verlet particle simulation (`src/main.rs`).

The simulation core is embedded shallowly: the `f32` vector type `glam::Vec2`
becomes a pair of real numbers, particles and the simulation state become
structures, and every method of the source (`Particle::new`, `Particle::update`,
`Particle::accelerate`, `VerletSimulation::spawn_particle`,
`VerletSimulation::update`, `VerletSimulation::apply_constraints`,
`VerletSimulation::solve_collisions`) becomes a Lean function translated
line by line from the Rust source.  In-place mutation of the particle vector
becomes explicit state passing over a `List Particle`; the pairwise
collision loops become folds over the same index ranges the source iterates.
-/

noncomputable section

open Classical

/-- Two-dimensional vector over the reals, embedding `glam::Vec2`. -/
@[ext]
structure Vec2 where
  x : ℝ
  y : ℝ

instance : Zero Vec2 := ⟨⟨0, 0⟩⟩

instance : Add Vec2 := ⟨fun a b => ⟨a.x + b.x, a.y + b.y⟩⟩

instance : Sub Vec2 := ⟨fun a b => ⟨a.x - b.x, a.y - b.y⟩⟩

instance : Neg Vec2 := ⟨fun a => ⟨-a.x, -a.y⟩⟩

instance : HMul Vec2 ℝ Vec2 := ⟨fun v c => ⟨v.x * c, v.y * c⟩⟩

instance : HMul ℝ Vec2 Vec2 := ⟨fun c v => ⟨c * v.x, c * v.y⟩⟩

instance : HDiv Vec2 ℝ Vec2 := ⟨fun v c => ⟨v.x / c, v.y / c⟩⟩

@[simp] theorem Vec2.zero_x : (0 : Vec2).x = 0 := rfl

@[simp] theorem Vec2.zero_y : (0 : Vec2).y = 0 := rfl

@[simp] theorem Vec2.add_x (a b : Vec2) : (a + b).x = a.x + b.x := rfl

@[simp] theorem Vec2.add_y (a b : Vec2) : (a + b).y = a.y + b.y := rfl

@[simp] theorem Vec2.sub_x (a b : Vec2) : (a - b).x = a.x - b.x := rfl

@[simp] theorem Vec2.sub_y (a b : Vec2) : (a - b).y = a.y - b.y := rfl

@[simp] theorem Vec2.neg_x (a : Vec2) : (-a).x = -a.x := rfl

@[simp] theorem Vec2.neg_y (a : Vec2) : (-a).y = -a.y := rfl

@[simp] theorem Vec2.mul_real_x (v : Vec2) (c : ℝ) : (v * c).x = v.x * c := rfl

@[simp] theorem Vec2.mul_real_y (v : Vec2) (c : ℝ) : (v * c).y = v.y * c := rfl

@[simp] theorem Vec2.real_mul_x (c : ℝ) (v : Vec2) : (c * v).x = c * v.x := rfl

@[simp] theorem Vec2.real_mul_y (c : ℝ) (v : Vec2) : (c * v).y = c * v.y := rfl

@[simp] theorem Vec2.div_real_x (v : Vec2) (c : ℝ) : (v / c).x = v.x / c := rfl

@[simp] theorem Vec2.div_real_y (v : Vec2) (c : ℝ) : (v / c).y = v.y / c := rfl

/-- Euclidean norm, embedding `glam::Vec2::length` (`sqrt(x*x + y*y)`). -/
def Vec2.length (v : Vec2) : ℝ := Real.sqrt (v.x ^ 2 + v.y ^ 2)

/-- Dot product, embedding `glam::Vec2::dot`. -/
def Vec2.dot (a b : Vec2) : ℝ := a.x * b.x + a.y * b.y

/-- Reflection about a normal, embedding `glam::Vec2::reflect`:
`self - 2 * self.dot(normal) * normal`. -/
def Vec2.reflect (v n : Vec2) : Vec2 := v - (2 * Vec2.dot v n) * n

/-- Source constant `WIDTH: u32 = 600`. -/
def WIDTH : ℕ := 600

/-- Source constant `HEIGHT: u32 = 600`. -/
def HEIGHT : ℕ := 600

/-- Source constant `GRAVITY: Vec2 = Vec2::new(0.0, 750.0)`. -/
def GRAVITY : Vec2 := ⟨0, 750⟩

/-- Source constant `PARTICLE_RADIUS: f32 = 10.0`. -/
def PARTICLE_RADIUS : ℝ := 10

/-- Source constant `CENTER: Vec2 = Vec2::new(WIDTH as f32 / 2.0, HEIGHT as f32 / 2.0)`. -/
def CENTER : Vec2 := ⟨(WIDTH : ℝ) / 2, (HEIGHT : ℝ) / 2⟩

/-- Source constant `FRAMES_BETWEEN_NEW_PARTICLES: u32 = 15`. -/
def FRAMES_BETWEEN_NEW_PARTICLES : ℕ := 15

/-- A particle, embedding `struct Particle { pos, old_pos, acceleration }`. -/
@[ext]
structure Particle where
  pos : Vec2
  old_pos : Vec2
  acceleration : Vec2

/-- Embeds `Particle::new(x, y, vx, vy)`. -/
def Particle.new (x y vx vy : ℝ) : Particle :=
  { pos := ⟨x, y⟩, old_pos := ⟨vx, vy⟩, acceleration := 0 }

/-- Embeds `Particle::update(dt)`: Verlet integration step. -/
def Particle.update (p : Particle) (dt : ℝ) : Particle :=
  let vel := p.pos - p.old_pos
  { pos := p.pos + vel + p.acceleration * dt * dt, old_pos := p.pos, acceleration := 0 }

/-- Embeds `Particle::accelerate(acc)`. -/
def Particle.accelerate (p : Particle) (acc : Vec2) : Particle :=
  { p with acceleration := p.acceleration + acc }

/-- The simulation state, embedding `struct VerletSimulation { particles: Vec<Particle> }`. -/
structure VerletSimulation where
  particles : List Particle

/-- Embeds `VerletSimulation::new()`: empty particle vector. -/
def VerletSimulation.new : VerletSimulation := ⟨[]⟩

/-- Embeds `VerletSimulation::spawn_particle(x, y, dir)`. -/
def VerletSimulation.spawn_particle (s : VerletSimulation) (x y dir : ℝ) : VerletSimulation :=
  let speed : ℝ := 0.1
  let vx := speed * Real.cos dir
  let vy := speed * Real.sin dir
  ⟨s.particles ++ [Particle.new x y (x + vx) (y + vy)]⟩

/-- The loop body of `VerletSimulation::apply_constraints`, acting on one particle.
`radius` is the source's local `let radius = 250.0 - PARTICLE_RADIUS`. -/
def constrainParticle (p : Particle) : Particle :=
  let radius : ℝ := 250 - PARTICLE_RADIUS
  let to_obj := p.pos - CENTER
  let dist := to_obj.length
  if dist > radius - PARTICLE_RADIUS then
    let n := to_obj / dist
    let penetration := dist - (radius - PARTICLE_RADIUS)
    let newPos := p.pos - n * penetration
    let vel := newPos - p.old_pos
    { p with pos := newPos, old_pos := newPos - Vec2.reflect vel n * (0.999 : ℝ) }
  else p

/-- Embeds `VerletSimulation::apply_constraints`: the boundary pass over all particles. -/
def VerletSimulation.apply_constraints (s : VerletSimulation) : VerletSimulation :=
  ⟨s.particles.map constrainParticle⟩

/-- The body of the pairwise collision loop in `VerletSimulation::solve_collisions`,
acting on the pair `(p1, p2) = (particles[i], particles[j])`. -/
def resolvePair (p1 p2 : Particle) : Particle × Particle :=
  let axis := p1.pos - p2.pos
  let dist := axis.length
  if dist < PARTICLE_RADIUS * 2 then
    let n := axis / dist
    let delta := PARTICLE_RADIUS * 2 - dist
    let q1 := { p1 with pos := p1.pos + (0.5 : ℝ) * n * delta }
    let q2 := { p2 with pos := p2.pos - (0.5 : ℝ) * n * delta }
    let v1 := q1.pos - q1.old_pos
    let v2 := q2.pos - q2.old_pos
    let relative_velocity := v1 - v2
    let normal_vel := Vec2.dot relative_velocity n
    if normal_vel < 0 then
      let restitution : ℝ := 0.7
      let impulse := -normal_vel * restitution * n
      ({ q1 with old_pos := q1.old_pos - impulse }, { q2 with old_pos := q2.old_pos + impulse })
    else
      (q1, q2)
  else
    (p1, p2)

/-- One iteration of the inner collision loop: mutates slots `i` and `j` of the
particle list through `resolvePair` (the source's split-borrow in-place update). -/
def collidePair (ps : List Particle) (i j : ℕ) : List Particle :=
  match ps[i]?, ps[j]? with
  | some p1, some p2 =>
    let r := resolvePair p1 p2
    (ps.set i r.1).set j r.2
  | _, _ => ps

/-- Embeds `VerletSimulation::solve_collisions`: the O(n²) scan over pairs
`i in 0..len`, `j in i+1..len`, updating the list in place pair by pair. -/
def VerletSimulation.solve_collisions (s : VerletSimulation) : VerletSimulation :=
  let n := s.particles.length
  ⟨(List.range n).foldl
    (fun acc i =>
      (List.range' (i + 1) (n - (i + 1))).foldl (fun acc2 j => collidePair acc2 i j) acc)
    s.particles⟩

/-- The source's local `let sub_runs = 8` in `VerletSimulation::update`. -/
def sub_runs : ℕ := 8

/-- Embeds `VerletSimulation::update(dt, frame)`: spawn check, then `sub_runs`
sub-steps of gravity accumulation, boundary constraint, collision resolution
and integration with `sub_dt = dt / sub_runs`. -/
def VerletSimulation.update (s : VerletSimulation) (dt : ℝ) (frame : ℕ) : VerletSimulation :=
  let s1 := if frame % FRAMES_BETWEEN_NEW_PARTICLES = 0 ∧ s.particles.length < 200
    then s.spawn_particle CENTER.x 100 0
    else s
  let sub_dt := dt / (sub_runs : ℝ)
  (fun st : VerletSimulation =>
    ⟨((⟨st.particles.map (fun p => p.accelerate GRAVITY)⟩ :
        VerletSimulation).apply_constraints.solve_collisions.particles.map
      (fun p => p.update sub_dt))⟩)^[sub_runs] s1

/-- Gravity-accumulation pass: the first inner loop of `VerletSimulation::update`. -/
def accelerateAll (s : VerletSimulation) : VerletSimulation :=
  ⟨s.particles.map (fun p => p.accelerate GRAVITY)⟩

/-- Integration pass: the last inner loop of `VerletSimulation::update`. -/
def integrateAll (dt : ℝ) (s : VerletSimulation) : VerletSimulation :=
  ⟨s.particles.map (fun p => p.update dt)⟩

/-- The spawn check at the head of `VerletSimulation::update`. -/
def spawnStep (s : VerletSimulation) (frame : ℕ) : VerletSimulation :=
  if frame % FRAMES_BETWEEN_NEW_PARTICLES = 0 ∧ s.particles.length < 200
  then s.spawn_particle CENTER.x 100 0
  else s

/-- One sub-step of the pipeline: gravity, boundary constraint, collisions, integration. -/
def substep (dt : ℝ) (s : VerletSimulation) : VerletSimulation :=
  integrateAll dt ((accelerateAll s).apply_constraints.solve_collisions)

/-- Runs a sequence of `(dt, frame)` calls to `VerletSimulation::update`. -/
def runCalls (s : VerletSimulation) (calls : List (ℝ × ℕ)) : VerletSimulation :=
  calls.foldl (fun st c => st.update c.1 c.2) s

/-- The wall radius actually enforced by the code: the local `radius` of
`apply_constraints`, which also equals the radius of the container circle
drawn by `render` (`250 - PARTICLE_RADIUS`). -/
def wall_radius : ℝ := 250 - PARTICLE_RADIUS

theorem update_pipeline (s : VerletSimulation) (dt : ℝ) (frame : ℕ) :
    s.update dt frame = (substep (dt / (sub_runs : ℝ)))^[sub_runs] (spawnStep s frame) := rfl

theorem collidePair_length (ps : List Particle) (i j : ℕ) :
    (collidePair ps i j).length = ps.length := by
  unfold collidePair
  split <;> simp [List.length_set]

theorem foldl_collide_length (i : ℕ) :
    ∀ (js : List ℕ) (ps : List Particle),
      (js.foldl (fun a j => collidePair a i j) ps).length = ps.length := by
  intro js
  induction js with
  | nil => intro ps; rfl
  | cons j t ih => intro ps; rw [List.foldl_cons, ih, collidePair_length]

theorem foldl_outer_length (n : ℕ) :
    ∀ (il : List ℕ) (ps : List Particle),
      (il.foldl
        (fun acc i =>
          (List.range' (i + 1) (n - (i + 1))).foldl (fun acc2 j => collidePair acc2 i j) acc)
        ps).length = ps.length := by
  intro il
  induction il with
  | nil => intro ps; rfl
  | cons i t ih => intro ps; rw [List.foldl_cons, ih, foldl_collide_length]

theorem solve_collisions_length (s : VerletSimulation) :
    s.solve_collisions.particles.length = s.particles.length := by
  unfold VerletSimulation.solve_collisions
  exact foldl_outer_length _ _ _

theorem substep_length (dt : ℝ) (s : VerletSimulation) :
    (substep dt s).particles.length = s.particles.length := by
  unfold substep integrateAll
  rw [List.length_map, solve_collisions_length]
  unfold VerletSimulation.apply_constraints accelerateAll
  rw [List.length_map, List.length_map]

theorem iterate_substep_length (dt : ℝ) :
    ∀ (k : ℕ) (s : VerletSimulation),
      ((substep dt)^[k] s).particles.length = s.particles.length := by
  intro k
  induction k with
  | zero => intro s; rfl
  | succ m ih => intro s; rw [Function.iterate_succ_apply, ih, substep_length]

theorem spawnStep_length (s : VerletSimulation) (frame : ℕ) :
    (spawnStep s frame).particles.length =
      if frame % FRAMES_BETWEEN_NEW_PARTICLES = 0 ∧ s.particles.length < 200
      then s.particles.length + 1 else s.particles.length := by
  unfold spawnStep VerletSimulation.spawn_particle
  split_ifs <;> simp

theorem update_length (s : VerletSimulation) (dt : ℝ) (frame : ℕ) :
    (s.update dt frame).particles.length =
      if frame % FRAMES_BETWEEN_NEW_PARTICLES = 0 ∧ s.particles.length < 200
      then s.particles.length + 1 else s.particles.length := by
  rw [update_pipeline, iterate_substep_length, spawnStep_length]

theorem update_length_le (s : VerletSimulation) (dt : ℝ) (frame : ℕ)
    (h : s.particles.length ≤ 200) : (s.update dt frame).particles.length ≤ 200 := by
  rw [update_length]
  split_ifs with hc
  · omega
  · exact h

theorem runCalls_length_le :
    ∀ (calls : List (ℝ × ℕ)) (s : VerletSimulation),
      s.particles.length ≤ 200 → (runCalls s calls).particles.length ≤ 200 := by
  intro calls
  induction calls with
  | nil => intro s h; exact h
  | cons c t ih =>
    intro s h
    rw [runCalls, List.foldl_cons]
    exact ih (s.update c.1 c.2) (update_length_le s c.1 c.2 h)

/-- C4: `Particle::update(dt)` snapshots the old position into `previous_position`,
moves `position` by the implicit velocity plus `acceleration * dt²`, resets the
acceleration accumulator to zero, and changes nothing else about the particle. -/
theorem c4_particle_update (p : Particle) (dt : ℝ) :
    p.update dt =
      { pos := p.pos + (p.pos - p.old_pos) + p.acceleration * dt * dt,
        old_pos := p.pos, acceleration := 0 } := rfl

/-- C5: starting from the empty simulation, after any sequence of `update` calls
with any `dt` and `frame` arguments, the particle count never exceeds 200. -/
theorem c5_capacity_cap (calls : List (ℝ × ℕ)) :
    (runCalls VerletSimulation.new calls).particles.length ≤ 200 :=
  runCalls_length_le calls VerletSimulation.new (by simp [VerletSimulation.new])

/-- C6: one `update(dt, frame)` call grows the particle count by exactly 1 when
`frame % FRAMES_BETWEEN_NEW_PARTICLES == 0` and the count is below 200, and
leaves the count unchanged otherwise; in particular no particle is ever removed. -/
theorem c6_spawn_cadence (s : VerletSimulation) (dt : ℝ) (frame : ℕ) :
    (s.update dt frame).particles.length =
      if frame % FRAMES_BETWEEN_NEW_PARTICLES = 0 ∧ s.particles.length < 200
      then s.particles.length + 1 else s.particles.length :=
  update_length s dt frame

/-- C7: `update(dt, frame)` performs the spawn check exactly once, before any
sub-step, then repeats `sub_runs` times the fixed sequence gravity-accumulation,
boundary constraint, collision resolution, integration by `dt / sub_runs`. -/
theorem c7_orchestration (s : VerletSimulation) (dt : ℝ) (frame : ℕ) :
    s.update dt frame =
      (fun st => integrateAll (dt / (sub_runs : ℝ))
        ((accelerateAll st).apply_constraints.solve_collisions))^[sub_runs]
        (spawnStep s frame) := rfl

/-- C8: the step function is deterministic: two runs from identical particle
lists fed an identical sequence of `(dt, frame)` arguments produce identical
particle states after every call; the embedded step depends on nothing else. -/
theorem c8_determinism (s1 s2 : VerletSimulation) (calls : List (ℝ × ℕ)) (h : s1 = s2) :
    runCalls s1 calls = runCalls s2 calls := by rw [h]

theorem c8_determinism_witness :
    VerletSimulation.new = VerletSimulation.new ∧
      runCalls VerletSimulation.new [(1 / 60, 1)] =
        runCalls VerletSimulation.new [(1 / 60, 1)] :=
  ⟨rfl, c8_determinism VerletSimulation.new VerletSimulation.new [(1 / 60, 1)] rfl⟩

theorem wall_radius_230 : (250 : ℝ) - PARTICLE_RADIUS - PARTICLE_RADIUS = 230 := by
  norm_num [PARTICLE_RADIUS]

theorem constrainParticle_not_hit (p : Particle)
    (h : (p.pos - CENTER).length ≤ 230) : constrainParticle p = p := by
  have h2 : ¬ ((p.pos - CENTER).length > 250 - PARTICLE_RADIUS - PARTICLE_RADIUS) := by
    rw [wall_radius_230]
    exact not_lt.mpr h
  simp only [constrainParticle]
  rw [if_neg h2]

theorem constrainParticle_hit_dist (p : Particle)
    (h : (p.pos - CENTER).length > 230) :
    ((constrainParticle p).pos - CENTER).length = 230 := by
  set d := (p.pos - CENTER).length with hd
  have hd0 : 0 < d := lt_trans (by norm_num) h
  have hdne : d ≠ 0 := ne_of_gt hd0
  have h' : d > 250 - PARTICLE_RADIUS - PARTICLE_RADIUS := by
    rw [wall_radius_230]
    exact h
  have hx : (constrainParticle p).pos - CENTER =
      ⟨(p.pos - CENTER).x * (230 / d), (p.pos - CENTER).y * (230 / d)⟩ := by
    simp only [constrainParticle]
    rw [if_pos h', wall_radius_230]
    ext <;> simp <;> field_simp <;> ring
  rw [hx]
  show Real.sqrt (((p.pos - CENTER).x * (230 / d)) ^ 2 +
    ((p.pos - CENTER).y * (230 / d)) ^ 2) = 230
  rw [show ((p.pos - CENTER).x * (230 / d)) ^ 2 + ((p.pos - CENTER).y * (230 / d)) ^ 2 =
      ((p.pos - CENTER).x ^ 2 + (p.pos - CENTER).y ^ 2) * (230 / d) ^ 2 from by ring]
  rw [Real.sqrt_mul (by positivity), Real.sqrt_sq (by positivity)]
  have hs : Real.sqrt ((p.pos - CENTER).x ^ 2 + (p.pos - CENTER).y ^ 2) = d := rfl
  rw [hs]
  field_simp

theorem constrainParticle_dist_le (p : Particle) :
    ((constrainParticle p).pos - CENTER).length ≤ 230 := by
  by_cases h : (p.pos - CENTER).length > 230
  · rw [constrainParticle_hit_dist p h]
  · rw [constrainParticle_not_hit p (not_lt.mp h)]
    exact not_lt.mp h

/-- C1: after one run of the boundary pass `apply_constraints`, every particle
satisfies `distance(position, center) + particle_radius <= 250` (container
radius 250, particle radius 10, center (300, 300)); the bound holds exactly,
with no tolerance needed, since the pass even enforces distance ≤ 230. -/
theorem c1_containment (s : VerletSimulation) :
    ∀ p ∈ s.apply_constraints.particles,
      (p.pos - CENTER).length + PARTICLE_RADIUS ≤ 250 := by
  intro p hp
  simp only [VerletSimulation.apply_constraints, List.mem_map] at hp
  obtain ⟨q, -, rfl⟩ := hp
  have hle := constrainParticle_dist_le q
  have hPR : PARTICLE_RADIUS = 10 := rfl
  rw [hPR]
  linarith

theorem c1_containment_witness :
    (⟨CENTER, CENTER, 0⟩ : Particle) ∈
        (VerletSimulation.mk [⟨CENTER, CENTER, 0⟩]).apply_constraints.particles ∧
      ((⟨CENTER, CENTER, 0⟩ : Particle).pos - CENTER).length + PARTICLE_RADIUS ≤ 250 := by
  have hc : constrainParticle ⟨CENTER, CENTER, 0⟩ = ⟨CENTER, CENTER, 0⟩ := by
    apply constrainParticle_not_hit
    show Vec2.length (CENTER - CENTER) ≤ 230
    have : CENTER - CENTER = (0 : Vec2) := by ext <;> simp
    rw [this]
    show Real.sqrt ((0:ℝ) ^ 2 + (0:ℝ) ^ 2) ≤ 230
    rw [show (0:ℝ) ^ 2 + (0:ℝ) ^ 2 = 0 from by ring, Real.sqrt_zero]
    norm_num
  have hm : (⟨CENTER, CENTER, 0⟩ : Particle) ∈
      (VerletSimulation.mk [⟨CENTER, CENTER, 0⟩]).apply_constraints.particles := by
    simp [VerletSimulation.apply_constraints, hc]
  exact ⟨hm, c1_containment _ _ hm⟩

/-- C3: the boundary pass body modifies a particle's position or previous
position exactly when its distance from the center plus the particle radius
exceeds the enforced wall radius (`wall_radius = 250 - PARTICLE_RADIUS = 240`,
the code's `radius` and the radius of the container circle drawn by `render`);
every particle at or inside that boundary is left completely unchanged. -/
theorem c3_frame_effect (p : Particle) :
    (((constrainParticle p).pos ≠ p.pos ∨ (constrainParticle p).old_pos ≠ p.old_pos) ↔
      (p.pos - CENTER).length + PARTICLE_RADIUS > wall_radius) ∧
    ((p.pos - CENTER).length + PARTICLE_RADIUS ≤ wall_radius → constrainParticle p = p) := by
  have hPR : PARTICLE_RADIUS = 10 := rfl
  have hwr : wall_radius = 240 := by norm_num [wall_radius, PARTICLE_RADIUS]
  constructor
  · constructor
    · intro hmod
      by_contra hc
      push_neg at hc
      have hle : (p.pos - CENTER).length ≤ 230 := by rw [hwr, hPR] at hc; linarith
      have heq := constrainParticle_not_hit p hle
      rcases hmod with hpos | hold
      · exact hpos (by rw [heq])
      · exact hold (by rw [heq])
    · intro hgt
      have hgt' : (p.pos - CENTER).length > 230 := by rw [hwr, hPR] at hgt; linarith
      left
      intro heq
      have hdist := constrainParticle_hit_dist p hgt'
      rw [heq] at hdist
      rw [hdist] at hgt'
      exact absurd hgt' (lt_irrefl _)
  · intro hle
    apply constrainParticle_not_hit
    rw [hwr, hPR] at hle
    linarith

theorem c3_frame_effect_witness :
    ((⟨CENTER, CENTER, 0⟩ : Particle).pos - CENTER).length + PARTICLE_RADIUS ≤ wall_radius ∧
      constrainParticle ⟨CENTER, CENTER, 0⟩ = ⟨CENTER, CENTER, 0⟩ := by
  have hd : ((⟨CENTER, CENTER, 0⟩ : Particle).pos - CENTER).length = 0 := by
    show Vec2.length (CENTER - CENTER) = 0
    have : CENTER - CENTER = (0 : Vec2) := by ext <;> simp
    rw [this]
    show Real.sqrt ((0:ℝ) ^ 2 + (0:ℝ) ^ 2) = 0
    rw [show (0:ℝ) ^ 2 + (0:ℝ) ^ 2 = 0 from by ring, Real.sqrt_zero]
  have hle : ((⟨CENTER, CENTER, 0⟩ : Particle).pos - CENTER).length + PARTICLE_RADIUS ≤
      wall_radius := by
    rw [hd]
    norm_num [PARTICLE_RADIUS, wall_radius]
  exact ⟨hle, (c3_frame_effect ⟨CENTER, CENTER, 0⟩).2 hle⟩

theorem Vec2.real_mul_zero (c : ℝ) : c * (0 : Vec2) = 0 := by ext <;> simp

theorem Vec2.zero_mul_real (c : ℝ) : (0 : Vec2) * c = 0 := by ext <;> simp

theorem Vec2.dot_zero_right (v : Vec2) : Vec2.dot v 0 = 0 := by simp [Vec2.dot]

theorem Vec2.length_sub_self (v : Vec2) : (v - v).length = 0 := by
  unfold Vec2.length
  simp

/-- C10: whenever `solve_collisions` handles a colliding pair whose separation
distance is nonzero, the positional correction preserves the sum of the two
positions, and the whole pair resolution (impulse applied or not) preserves the
sum of the two implicit velocities, because the corrections are equal and opposite. -/
theorem c10_momentum (p1 p2 : Particle)
    (hne : (p1.pos - p2.pos).length ≠ 0)
    (hcol : (p1.pos - p2.pos).length < PARTICLE_RADIUS * 2) :
    (resolvePair p1 p2).1.pos + (resolvePair p1 p2).2.pos = p1.pos + p2.pos ∧
      ((resolvePair p1 p2).1.pos - (resolvePair p1 p2).1.old_pos) +
          ((resolvePair p1 p2).2.pos - (resolvePair p1 p2).2.old_pos) =
        (p1.pos - p1.old_pos) + (p2.pos - p2.old_pos) := by
  simp only [resolvePair]
  rw [if_pos hcol]
  split_ifs with himp
  · constructor <;> (ext <;> simp <;> ring)
  · constructor <;> (ext <;> simp <;> ring)

theorem c10_momentum_witness :
    ((⟨⟨0, 0⟩, ⟨0, 0⟩, 0⟩ : Particle).pos - (⟨⟨10, 0⟩, ⟨10, 0⟩, 0⟩ : Particle).pos).length ≠ 0 ∧
      ((⟨⟨0, 0⟩, ⟨0, 0⟩, 0⟩ : Particle).pos -
          (⟨⟨10, 0⟩, ⟨10, 0⟩, 0⟩ : Particle).pos).length < PARTICLE_RADIUS * 2 ∧
      ((resolvePair ⟨⟨0, 0⟩, ⟨0, 0⟩, 0⟩ ⟨⟨10, 0⟩, ⟨10, 0⟩, 0⟩).1.pos +
          (resolvePair ⟨⟨0, 0⟩, ⟨0, 0⟩, 0⟩ ⟨⟨10, 0⟩, ⟨10, 0⟩, 0⟩).2.pos =
        (⟨⟨0, 0⟩, ⟨0, 0⟩, 0⟩ : Particle).pos + (⟨⟨10, 0⟩, ⟨10, 0⟩, 0⟩ : Particle).pos ∧
        ((resolvePair ⟨⟨0, 0⟩, ⟨0, 0⟩, 0⟩ ⟨⟨10, 0⟩, ⟨10, 0⟩, 0⟩).1.pos -
            (resolvePair ⟨⟨0, 0⟩, ⟨0, 0⟩, 0⟩ ⟨⟨10, 0⟩, ⟨10, 0⟩, 0⟩).1.old_pos) +
            ((resolvePair ⟨⟨0, 0⟩, ⟨0, 0⟩, 0⟩ ⟨⟨10, 0⟩, ⟨10, 0⟩, 0⟩).2.pos -
              (resolvePair ⟨⟨0, 0⟩, ⟨0, 0⟩, 0⟩ ⟨⟨10, 0⟩, ⟨10, 0⟩, 0⟩).2.old_pos) =
          ((⟨⟨0, 0⟩, ⟨0, 0⟩, 0⟩ : Particle).pos - (⟨⟨0, 0⟩, ⟨0, 0⟩, 0⟩ : Particle).old_pos) +
            ((⟨⟨10, 0⟩, ⟨10, 0⟩, 0⟩ : Particle).pos -
              (⟨⟨10, 0⟩, ⟨10, 0⟩, 0⟩ : Particle).old_pos)) := by
  have hlen : ((⟨⟨0, 0⟩, ⟨0, 0⟩, 0⟩ : Particle).pos -
      (⟨⟨10, 0⟩, ⟨10, 0⟩, 0⟩ : Particle).pos).length = 10 := by
    show Real.sqrt (((0:ℝ) - 10) ^ 2 + ((0:ℝ) - 0) ^ 2) = 10
    rw [show ((0:ℝ) - 10) ^ 2 + ((0:ℝ) - 0) ^ 2 = 10 ^ 2 from by norm_num,
      Real.sqrt_sq (by norm_num : (0:ℝ) ≤ 10)]
  refine ⟨by rw [hlen]; norm_num, by rw [hlen]; norm_num [PARTICLE_RADIUS], ?_⟩
  exact c10_momentum ⟨⟨0, 0⟩, ⟨0, 0⟩, 0⟩ ⟨⟨10, 0⟩, ⟨10, 0⟩, 0⟩
    (by rw [hlen]; norm_num) (by rw [hlen]; norm_num [PARTICLE_RADIUS])

theorem Vec2.add_zero_right (v : Vec2) : v + 0 = v := by ext <;> simp

theorem Vec2.sub_zero_right (v : Vec2) : v - 0 = v := by ext <;> simp

theorem resolvePair_self (p : Particle) : resolvePair p p = (p, p) := by
  have hc : (p.pos - p.pos).length < PARTICLE_RADIUS * 2 := by
    rw [Vec2.length_sub_self]
    norm_num [PARTICLE_RADIUS]
  have hn : (p.pos - p.pos) / (p.pos - p.pos).length = (0 : Vec2) := by
    ext <;> simp
  simp only [resolvePair]
  rw [if_pos hc, hn]
  simp [Vec2.real_mul_zero, Vec2.zero_mul_real, Vec2.dot_zero_right,
    Vec2.add_zero_right, Vec2.sub_zero_right]

/-- C2 evaluation: two particles with exactly coincident centers are passed to
the collision branch with a zero-length separation axis, and `solve_collisions`
leaves the pair exactly coincident: no separation axis is applied.  (In the
exact-arithmetic model the source's `axis / dist` with `dist = 0` is the zero
vector; in the `f32` source it is `0.0 / 0.0 = NaN`, which then propagates.) -/
theorem c2_coincident_unseparated :
    VerletSimulation.solve_collisions
        ⟨[⟨⟨300, 300⟩, ⟨300, 300⟩, 0⟩, ⟨⟨300, 300⟩, ⟨300, 300⟩, 0⟩]⟩ =
      ⟨[⟨⟨300, 300⟩, ⟨300, 300⟩, 0⟩, ⟨⟨300, 300⟩, ⟨300, 300⟩, 0⟩]⟩ := by
  have h01 : collidePair [⟨⟨300, 300⟩, ⟨300, 300⟩, 0⟩, ⟨⟨300, 300⟩, ⟨300, 300⟩, 0⟩] 0 1 =
      [⟨⟨300, 300⟩, ⟨300, 300⟩, 0⟩, ⟨⟨300, 300⟩, ⟨300, 300⟩, 0⟩] := by
    simp [collidePair, resolvePair_self]
  simp only [VerletSimulation.solve_collisions]
  rw [show List.length [(⟨⟨300, 300⟩, ⟨300, 300⟩, 0⟩ : Particle),
    ⟨⟨300, 300⟩, ⟨300, 300⟩, 0⟩] = 2 from rfl]
  rw [show List.range 2 = [0, 1] from rfl]
  rw [List.foldl_cons, List.foldl_cons, List.foldl_nil]
  rw [show List.range' (0 + 1) (2 - (0 + 1)) = [1] from rfl]
  rw [show List.range' (1 + 1) (2 - (1 + 1)) = ([] : List ℕ) from rfl]
  rw [List.foldl_cons, List.foldl_nil, List.foldl_nil, h01]

theorem length_le_230 (v : Vec2) (h : v.x ^ 2 + v.y ^ 2 ≤ 52900) : v.length ≤ 230 := by
  unfold Vec2.length
  calc Real.sqrt (v.x ^ 2 + v.y ^ 2) ≤ Real.sqrt 52900 := Real.sqrt_le_sqrt h
  _ = 230 := by
      rw [show (52900 : ℝ) = 230 ^ 2 from by norm_num,
        Real.sqrt_sq (by norm_num : (0:ℝ) ≤ 230)]

theorem solve_collisions_singleton (q : Particle) :
    VerletSimulation.solve_collisions ⟨[q]⟩ = ⟨[q]⟩ := rfl

theorem substep_single (dt : ℝ) (p : Particle)
    (h : (p.pos - CENTER).length ≤ 230) :
    substep dt ⟨[p]⟩ = ⟨[(p.accelerate GRAVITY).update dt]⟩ := by
  unfold substep accelerateAll VerletSimulation.apply_constraints
  simp only [List.map_cons, List.map_nil]
  rw [constrainParticle_not_hit (p.accelerate GRAVITY) h, solve_collisions_singleton]
  rfl

theorem spawnStep_new_15 :
    spawnStep VerletSimulation.new 15 = ⟨[⟨⟨300, 100⟩, ⟨3001/10, 100⟩, 0⟩]⟩ := by
  unfold spawnStep
  rw [if_pos (by decide :
    15 % FRAMES_BETWEEN_NEW_PARTICLES = 0 ∧ VerletSimulation.new.particles.length < 200)]
  unfold VerletSimulation.spawn_particle VerletSimulation.new Particle.new
  simp [CENTER, WIDTH, Real.cos_zero, Real.sin_zero]
  norm_num

theorem c9_step1 :
    substep (1/480) ⟨[⟨⟨300, 100⟩, ⟨3001/10, 100⟩, 0⟩]⟩ =
      ⟨[⟨⟨2999/10, 100 + 5/1536⟩, ⟨300, 100⟩, 0⟩]⟩ := by
  rw [substep_single _ _ (length_le_230 _ (by norm_num [CENTER, WIDTH, HEIGHT]))]
  simp [Particle.accelerate, Particle.update, GRAVITY, Particle.ext_iff, Vec2.ext_iff]
  norm_num

theorem c9_step2 :
    substep (1/480) ⟨[⟨⟨2999/10, 100 + 5/1536⟩, ⟨300, 100⟩, 0⟩]⟩ =
      ⟨[⟨⟨2998/10, 100 + 15/1536⟩, ⟨2999/10, 100 + 5/1536⟩, 0⟩]⟩ := by
  rw [substep_single _ _ (length_le_230 _ (by norm_num [CENTER, WIDTH, HEIGHT]))]
  simp [Particle.accelerate, Particle.update, GRAVITY, Particle.ext_iff, Vec2.ext_iff]
  norm_num

theorem c9_step3 :
    substep (1/480) ⟨[⟨⟨2998/10, 100 + 15/1536⟩, ⟨2999/10, 100 + 5/1536⟩, 0⟩]⟩ =
      ⟨[⟨⟨2997/10, 100 + 30/1536⟩, ⟨2998/10, 100 + 15/1536⟩, 0⟩]⟩ := by
  rw [substep_single _ _ (length_le_230 _ (by norm_num [CENTER, WIDTH, HEIGHT]))]
  simp [Particle.accelerate, Particle.update, GRAVITY, Particle.ext_iff, Vec2.ext_iff]
  norm_num

theorem c9_step4 :
    substep (1/480) ⟨[⟨⟨2997/10, 100 + 30/1536⟩, ⟨2998/10, 100 + 15/1536⟩, 0⟩]⟩ =
      ⟨[⟨⟨2996/10, 100 + 50/1536⟩, ⟨2997/10, 100 + 30/1536⟩, 0⟩]⟩ := by
  rw [substep_single _ _ (length_le_230 _ (by norm_num [CENTER, WIDTH, HEIGHT]))]
  simp [Particle.accelerate, Particle.update, GRAVITY, Particle.ext_iff, Vec2.ext_iff]
  norm_num

theorem c9_step5 :
    substep (1/480) ⟨[⟨⟨2996/10, 100 + 50/1536⟩, ⟨2997/10, 100 + 30/1536⟩, 0⟩]⟩ =
      ⟨[⟨⟨2995/10, 100 + 75/1536⟩, ⟨2996/10, 100 + 50/1536⟩, 0⟩]⟩ := by
  rw [substep_single _ _ (length_le_230 _ (by norm_num [CENTER, WIDTH, HEIGHT]))]
  simp [Particle.accelerate, Particle.update, GRAVITY, Particle.ext_iff, Vec2.ext_iff]
  norm_num

theorem c9_step6 :
    substep (1/480) ⟨[⟨⟨2995/10, 100 + 75/1536⟩, ⟨2996/10, 100 + 50/1536⟩, 0⟩]⟩ =
      ⟨[⟨⟨2994/10, 100 + 105/1536⟩, ⟨2995/10, 100 + 75/1536⟩, 0⟩]⟩ := by
  rw [substep_single _ _ (length_le_230 _ (by norm_num [CENTER, WIDTH, HEIGHT]))]
  simp [Particle.accelerate, Particle.update, GRAVITY, Particle.ext_iff, Vec2.ext_iff]
  norm_num

theorem c9_step7 :
    substep (1/480) ⟨[⟨⟨2994/10, 100 + 105/1536⟩, ⟨2995/10, 100 + 75/1536⟩, 0⟩]⟩ =
      ⟨[⟨⟨2993/10, 100 + 140/1536⟩, ⟨2994/10, 100 + 105/1536⟩, 0⟩]⟩ := by
  rw [substep_single _ _ (length_le_230 _ (by norm_num [CENTER, WIDTH, HEIGHT]))]
  simp [Particle.accelerate, Particle.update, GRAVITY, Particle.ext_iff, Vec2.ext_iff]
  norm_num

theorem c9_step8 :
    substep (1/480) ⟨[⟨⟨2993/10, 100 + 140/1536⟩, ⟨2994/10, 100 + 105/1536⟩, 0⟩]⟩ =
      ⟨[⟨⟨2992/10, 100 + 180/1536⟩, ⟨2993/10, 100 + 140/1536⟩, 0⟩]⟩ := by
  rw [substep_single _ _ (length_le_230 _ (by norm_num [CENTER, WIDTH, HEIGHT]))]
  simp [Particle.accelerate, Particle.update, GRAVITY, Particle.ext_iff, Vec2.ext_iff]
  norm_num

theorem update_new_15_particles :
    (VerletSimulation.new.update (1/60) 15).particles =
      [⟨⟨2992/10, 100 + 180/1536⟩, ⟨2993/10, 100 + 140/1536⟩, 0⟩] := by
  have g1 : (substep (1/480))^[1] (⟨[⟨⟨300, 100⟩, ⟨3001/10, 100⟩, 0⟩]⟩ : VerletSimulation) = ⟨[⟨⟨2999/10, 100 + 5/1536⟩, ⟨300, 100⟩, 0⟩]⟩ := by
    rw [Function.iterate_one]
    exact c9_step1
  have g2 : (substep (1/480))^[2] (⟨[⟨⟨300, 100⟩, ⟨3001/10, 100⟩, 0⟩]⟩ : VerletSimulation) = ⟨[⟨⟨2998/10, 100 + 15/1536⟩, ⟨2999/10, 100 + 5/1536⟩, 0⟩]⟩ := by
    show (substep (1/480))^[1+1] (⟨[⟨⟨300, 100⟩, ⟨3001/10, 100⟩, 0⟩]⟩ : VerletSimulation) = ⟨[⟨⟨2998/10, 100 + 15/1536⟩, ⟨2999/10, 100 + 5/1536⟩, 0⟩]⟩
    rw [Function.iterate_succ_apply', g1]
    exact c9_step2
  have g3 : (substep (1/480))^[3] (⟨[⟨⟨300, 100⟩, ⟨3001/10, 100⟩, 0⟩]⟩ : VerletSimulation) = ⟨[⟨⟨2997/10, 100 + 30/1536⟩, ⟨2998/10, 100 + 15/1536⟩, 0⟩]⟩ := by
    show (substep (1/480))^[2+1] (⟨[⟨⟨300, 100⟩, ⟨3001/10, 100⟩, 0⟩]⟩ : VerletSimulation) = ⟨[⟨⟨2997/10, 100 + 30/1536⟩, ⟨2998/10, 100 + 15/1536⟩, 0⟩]⟩
    rw [Function.iterate_succ_apply', g2]
    exact c9_step3
  have g4 : (substep (1/480))^[4] (⟨[⟨⟨300, 100⟩, ⟨3001/10, 100⟩, 0⟩]⟩ : VerletSimulation) = ⟨[⟨⟨2996/10, 100 + 50/1536⟩, ⟨2997/10, 100 + 30/1536⟩, 0⟩]⟩ := by
    show (substep (1/480))^[3+1] (⟨[⟨⟨300, 100⟩, ⟨3001/10, 100⟩, 0⟩]⟩ : VerletSimulation) = ⟨[⟨⟨2996/10, 100 + 50/1536⟩, ⟨2997/10, 100 + 30/1536⟩, 0⟩]⟩
    rw [Function.iterate_succ_apply', g3]
    exact c9_step4
  have g5 : (substep (1/480))^[5] (⟨[⟨⟨300, 100⟩, ⟨3001/10, 100⟩, 0⟩]⟩ : VerletSimulation) = ⟨[⟨⟨2995/10, 100 + 75/1536⟩, ⟨2996/10, 100 + 50/1536⟩, 0⟩]⟩ := by
    show (substep (1/480))^[4+1] (⟨[⟨⟨300, 100⟩, ⟨3001/10, 100⟩, 0⟩]⟩ : VerletSimulation) = ⟨[⟨⟨2995/10, 100 + 75/1536⟩, ⟨2996/10, 100 + 50/1536⟩, 0⟩]⟩
    rw [Function.iterate_succ_apply', g4]
    exact c9_step5
  have g6 : (substep (1/480))^[6] (⟨[⟨⟨300, 100⟩, ⟨3001/10, 100⟩, 0⟩]⟩ : VerletSimulation) = ⟨[⟨⟨2994/10, 100 + 105/1536⟩, ⟨2995/10, 100 + 75/1536⟩, 0⟩]⟩ := by
    show (substep (1/480))^[5+1] (⟨[⟨⟨300, 100⟩, ⟨3001/10, 100⟩, 0⟩]⟩ : VerletSimulation) = ⟨[⟨⟨2994/10, 100 + 105/1536⟩, ⟨2995/10, 100 + 75/1536⟩, 0⟩]⟩
    rw [Function.iterate_succ_apply', g5]
    exact c9_step6
  have g7 : (substep (1/480))^[7] (⟨[⟨⟨300, 100⟩, ⟨3001/10, 100⟩, 0⟩]⟩ : VerletSimulation) = ⟨[⟨⟨2993/10, 100 + 140/1536⟩, ⟨2994/10, 100 + 105/1536⟩, 0⟩]⟩ := by
    show (substep (1/480))^[6+1] (⟨[⟨⟨300, 100⟩, ⟨3001/10, 100⟩, 0⟩]⟩ : VerletSimulation) = ⟨[⟨⟨2993/10, 100 + 140/1536⟩, ⟨2994/10, 100 + 105/1536⟩, 0⟩]⟩
    rw [Function.iterate_succ_apply', g6]
    exact c9_step7
  have g8 : (substep (1/480))^[8] (⟨[⟨⟨300, 100⟩, ⟨3001/10, 100⟩, 0⟩]⟩ : VerletSimulation) = ⟨[⟨⟨2992/10, 100 + 180/1536⟩, ⟨2993/10, 100 + 140/1536⟩, 0⟩]⟩ := by
    show (substep (1/480))^[7+1] (⟨[⟨⟨300, 100⟩, ⟨3001/10, 100⟩, 0⟩]⟩ : VerletSimulation) = ⟨[⟨⟨2992/10, 100 + 180/1536⟩, ⟨2993/10, 100 + 140/1536⟩, 0⟩]⟩
    rw [Function.iterate_succ_apply', g7]
    exact c9_step8
  rw [update_pipeline,
    show ((1:ℝ)/60) / (sub_runs : ℝ) = 1/480 from by norm_num [sub_runs],
    spawnStep_new_15, show sub_runs = 8 from rfl, g8]

/-- C9 counterexample: with the code as written, `update(1/60, 1)` on the empty
simulation spawns nothing (1 % 15 ≠ 0, and the code has no configurable spawn
cadence), so the particle count after the call is 0, not 1 as the claim states. -/
theorem c9_counterexample :
    ¬ ((VerletSimulation.new.update (1 / 60) 1).particles.length = 1) := by
  rw [update_length]
  rw [if_neg (by decide :
    ¬ (1 % FRAMES_BETWEEN_NEW_PARTICLES = 0 ∧ VerletSimulation.new.particles.length < 200))]
  decide

/-- C9 amended: with the code's own constants (gravity (0, 750), spawn cadence
15, max 200 particles, particle radius 10, 8 sub-steps, spawn point (300, 100)),
after exactly one `update(1/60, 15)` call on the empty simulation the particle
count is 1 and the particle has moved downward (its y grew from 100 to
100 + 180/1536), exactly the result of 8 gravity-only sub-steps with no wall or
pair interaction. -/
theorem c9_amended_scenario :
    (VerletSimulation.new.update (1 / 60) 15).particles =
        [⟨⟨2992/10, 100 + 180/1536⟩, ⟨2993/10, 100 + 140/1536⟩, 0⟩] ∧
      (100 : ℝ) < 100 + 180/1536 :=
  ⟨update_new_15_particles, by norm_num⟩
